import Mathlib

/-!
Shallow embedding of the burst classification and demodulation core of
Transceiver52M/osmo-trx-dec.cpp.

The sigProcLib primitives (correlators, demodulators, energy estimator) and
the C math library log10 are external collaborators of this file: they are
modelled as an oracle structure `SigProc` and every theorem quantifies over
it.  Machine floats are modelled as rationals; the float-to-int conversion
at the final `return rc` of detectBurst is modelled as truncation toward
zero (`truncQ`), which is what the C conversion performs.  Out parameters
(amp, toa, RSSI, timingOffset) are modelled by explicit state passing: each
embedded function receives the caller-visible previous value and returns the
new one, so that frame conditions are statable.  Console and log output and
process exit are modelled as an effect trace (`Eff`), and correlator
invocations as a call trace (`DetCall`).
-/

/-- A burst sample buffer: an ordered sequence of complex values, each a
pair of rationals standing for the float I and Q components. -/
abbrev Burst := List (ℚ × ℚ)

/-- A soft-decision bit sequence (`SoftVector` contents). -/
abbrev SoftBits := List ℚ

/-- Codes for burst types of received bursts (the CorrType enum). -/
inductive CorrType
  | OFF
  | TSC
  | RACH
  | EDGE
  | IDLE
deriving DecidableEq, Repr

/-- The integer value of a CorrType enumerator, as laid out by the C enum
(OFF = 0, TSC = 1, RACH = 2, EDGE = 3, IDLE = 4). -/
def corrTypeCode : CorrType → Int
  | .OFF => 0
  | .TSC => 1
  | .RACH => 2
  | .EDGE => 3
  | .IDLE => 4

/-- The C cast `(CorrType) rc` used by demodulateBurst on a positive
detection result; values outside the enum range are never produced by
detectBurst on the positive path. -/
def codeToCorrType (i : Int) : CorrType :=
  if i = 1 then .TSC
  else if i = 2 then .RACH
  else if i = 3 then .EDGE
  else if i = 4 then .IDLE
  else .OFF

/-- C float-to-int conversion: truncation toward zero. -/
def truncQ (q : ℚ) : Int :=
  if 0 ≤ q then ⌊q⌋ else ⌈q⌉

/-- Modelled from the spec: sigProcLib.h is not among the given sources; the
spec describes a neutral "no burst present" status code, produced by the
IDLE branch and treated silently by the orchestrator.  It is the zero status
(the code also reaches it by leaving `rc = 0` untouched). -/
def SIGERR_NONE : Int := 0

/-- Modelled from the spec: sigProcLib.h is not among the given sources; the
spec describes a "clipping detected" status code, distinct from the neutral
code.  It is modelled as the positive constant the code negates at the
comparison `rc == -SIGERR_CLIP`. -/
def SIGERR_CLIP : Int := 2

/-- The `trx_config` structure. -/
structure trx_config where
  log_level : String
  rx_sps : ℕ
  rtsc : ℕ
  max_expected_delay_nb : ℕ
  max_expected_delay_ab : ℕ
  rx_full_scale : ℚ
  edge : Bool
  type : CorrType
  filename : String
deriving DecidableEq, Repr

/-- The value triple a correlator primitive delivers: its return value `rc`
(the score or a status code) and the values it stores through the `amp` and
`toa` out parameters. -/
structure CorrOut where
  rc : ℚ
  amp : ℚ × ℚ
  toa : ℚ
deriving DecidableEq, Repr

/-- One recorded invocation of a correlator primitive, with the arguments it
was handed. -/
inductive DetCall
  | edge (burst : Burst) (tsc : ℕ) (threshold : ℚ) (sps : ℕ) (maxDelay : ℕ)
  | tsc (burst : Burst) (tsc : ℕ) (threshold : ℚ) (sps : ℕ) (maxDelay : ℕ)
  | rach (burst : Burst) (threshold : ℚ) (sps : ℕ) (maxDelay : ℕ)
deriving DecidableEq, Repr

/-- An observable effect: log output, console output, the usage text, the
config printout, or process exit with a code. -/
inductive Eff
  | logErr (msg : String)
  | logWarning (msg : String)
  | coutMsg (msg : String)
  | printfMsg (msg : String)
  | printUsage
  | printConfig
  | exitProc (code : ℕ)
deriving DecidableEq, Repr

/-- The external collaborators of the core (sigProcLib and libm), opaque to
this file and therefore modelled as an arbitrary oracle.  Each correlator
returns its score together with the amp and toa values it writes; each
demodulator returns an optional soft bit sequence (`NULL` becomes `none`). -/
structure SigProc where
  detectEdgeBurst : Burst → ℕ → ℚ → ℕ → ℕ → CorrOut
  analyzeTrafficBurst : Burst → ℕ → ℚ → ℕ → ℕ → CorrOut
  detectRACHBurst : Burst → ℚ → ℕ → ℕ → CorrOut
  energyDetect : Burst → ℕ → ℚ → ℚ
  log10 : ℚ → ℚ
  demodEdgeBurst : Burst → ℕ → (ℚ × ℚ) → ℚ → Option SoftBits
  demodulateBurst : Burst → ℕ → (ℚ × ℚ) → ℚ → Option SoftBits

/-- The message detectBurst logs on an unknown requested type. -/
def invalidTypeMsg : String := "Invalid correlation type"

/-- The console message for a clipping status. -/
def clipMsg : String := "Clipping detected on received RACH or Normal Burst"

/-- The log message for any other unhandled non-positive status. -/
def unhandledMsg : String := "Unhandled RACH or Normal Burst detection error"

/-- What one call of detectBurst produces: its int return value, the final
values of the amp and toa out parameters, the correlators it invoked and the
effects it emitted. -/
structure DetectResult where
  rc : Int
  amp : ℚ × ℚ
  toa : ℚ
  calls : List DetCall
  effs : List Eff
deriving DecidableEq, Repr

/-- detectBurst: switch on the requested type with threshold 5.0.  The EDGE
case falls through to the TSC case (substituting type = TSC) when the EDGE
correlator score is not positive; RACH raises the threshold to 6.0; IDLE
sets the neutral status without correlating; any other type logs an error
and leaves `rc = 0`.  Finally a positive float score returns the (possibly
substituted) type as an int, and otherwise the float score itself is
returned, converted to int. -/
def detectBurst (sp : SigProc) (config : trx_config) (burst : Burst)
    (amp₀ : ℚ × ℚ) (toa₀ : ℚ) (type : CorrType) : DetectResult :=
  let threshold : ℚ := 5
  match type with
  | .EDGE =>
      let o := sp.detectEdgeBurst burst config.rtsc threshold config.rx_sps
        config.max_expected_delay_nb
      if o.rc > 0 then
        { rc := corrTypeCode .EDGE, amp := o.amp, toa := o.toa,
          calls := [.edge burst config.rtsc threshold config.rx_sps
            config.max_expected_delay_nb],
          effs := [] }
      else
        let o2 := sp.analyzeTrafficBurst burst config.rtsc threshold
          config.rx_sps config.max_expected_delay_nb
        { rc := if o2.rc > 0 then corrTypeCode .TSC else truncQ o2.rc,
          amp := o2.amp, toa := o2.toa,
          calls := [.edge burst config.rtsc threshold config.rx_sps
              config.max_expected_delay_nb,
            .tsc burst config.rtsc threshold config.rx_sps
              config.max_expected_delay_nb],
          effs := [] }
  | .TSC =>
      let o := sp.analyzeTrafficBurst burst config.rtsc threshold
        config.rx_sps config.max_expected_delay_nb
      { rc := if o.rc > 0 then corrTypeCode .TSC else truncQ o.rc,
        amp := o.amp, toa := o.toa,
        calls := [.tsc burst config.rtsc threshold config.rx_sps
          config.max_expected_delay_nb],
        effs := [] }
  | .RACH =>
      let threshold : ℚ := 6
      let o := sp.detectRACHBurst burst threshold config.rx_sps
        config.max_expected_delay_ab
      { rc := if o.rc > 0 then corrTypeCode .RACH else truncQ o.rc,
        amp := o.amp, toa := o.toa,
        calls := [.rach burst threshold config.rx_sps
          config.max_expected_delay_ab],
        effs := [] }
  | .IDLE =>
      { rc := SIGERR_NONE, amp := amp₀, toa := toa₀, calls := [], effs := [] }
  | .OFF =>
      { rc := 0, amp := amp₀, toa := toa₀, calls := [],
        effs := [.logErr invalidTypeMsg] }

/-- What one call of the demodulation orchestrator produces: the returned
soft bits (`NULL` becomes `none`) and the caller-visible final values of the
RSSI and timingOffset out parameters, plus the traces. -/
structure DemodResult where
  soft : Option SoftBits
  RSSI : ℚ
  timingOffset : ℚ
  calls : List DetCall
  effs : List Eff
deriving DecidableEq, Repr

/-- demodulateBurst, the orchestrator.  RSSI is computed first from the
energy estimate over the leading 20 × rx_sps samples with dc offset 0; then
the cascade runs (the local `amp` default-constructs to zero and the local
`toa` is only ever read after a positive detection wrote it, so the initial
values handed to detectBurst are unobservable).  A positive result is cast
back to a CorrType and dispatched; a non-positive result reports clipping on
the console or an unhandled condition in the log and returns NULL without
touching timingOffset. -/
def demodulateBurst (sp : SigProc) (config : trx_config) (burst : Burst)
    (SPSRx : ℕ) (RSSI₀ timingOffset₀ : ℚ) (type : CorrType) : DemodResult :=
  let avg := sp.energyDetect burst (20 * config.rx_sps) 0
  let RSSI := 20 * sp.log10 (config.rx_full_scale / avg)
  let d := detectBurst sp config burst (0, 0) 0 type
  if d.rc > 0 then
    let type := codeToCorrType d.rc
    let timingOffset := d.toa / (SPSRx : ℚ)
    if type = .EDGE then
      { soft := sp.demodEdgeBurst burst config.rx_sps d.amp d.toa,
        RSSI := RSSI, timingOffset := timingOffset,
        calls := d.calls, effs := d.effs }
    else
      { soft := sp.demodulateBurst burst config.rx_sps d.amp d.toa,
        RSSI := RSSI, timingOffset := timingOffset,
        calls := d.calls, effs := d.effs }
  else
    { soft := none, RSSI := RSSI, timingOffset := timingOffset₀,
      calls := d.calls,
      effs := d.effs ++
        (if d.rc = -SIGERR_CLIP then [.coutMsg clipMsg]
         else if d.rc ≠ SIGERR_NONE then [.logWarning unhandledMsg]
         else []) }

/-- The option values in force after the getopt loop of handle_options (the
defaults, possibly overwritten by command line options). -/
structure OptValues where
  log_level : String
  rx_sps : ℕ
  edge : Bool
  rtsc : ℕ
  filename : String
deriving DecidableEq, Repr

/-- The validation tail of handle_options: the three checks run in order and
each failure prints a message and the usage text and exits with code 0;
otherwise the populated config is returned.  The remaining fields carry the
hard-coded defaults (delays 30, full scale SHRT_MAX, type TSC). -/
def handle_options (o : OptValues) : List Eff × Option trx_config :=
  let config : trx_config :=
    { log_level := o.log_level, rx_sps := o.rx_sps, rtsc := o.rtsc,
      max_expected_delay_nb := 30, max_expected_delay_ab := 30,
      rx_full_scale := 32767, edge := o.edge, type := .TSC,
      filename := o.filename }
  if config.rx_sps ≠ 1 ∧ config.rx_sps ≠ 4 then
    ([.printfMsg ("Unsupported samples-per-symbol " ++ toString config.rx_sps),
      .printUsage, .exitProc 0], none)
  else if config.edge = true ∧ config.rx_sps ≠ 4 then
    ([.printfMsg "EDGE only supported at 4 samples per symbol",
      .printUsage, .exitProc 0], none)
  else if config.rtsc > 7 then
    ([.printfMsg ("Invalid training sequence " ++ toString config.rtsc),
      .printUsage, .exitProc 0], none)
  else
    ([], some config)

/-- The burst buffer length main allocates: `signalVector burst(156)`, a
constant independent of the configured samples per symbol. -/
def mainBurstLen : ℕ := 156

/-- The raw float values main reads from the input file:
`burst.size() * 2 * sizeof(float)` bytes, i.e. two floats per buffer slot. -/
def mainReadFloats : ℕ := mainBurstLen * 2

/-- What one run of main produces. -/
structure MainResult where
  effs : List Eff
  demodCalled : Bool
  burstLen : ℕ
  readFloats : ℕ
  soft : Option SoftBits
  RSSI : ℚ
  timingOffset : ℚ
deriving DecidableEq, Repr

/-- main: validate the options; on rejection the process exits before any
buffer is allocated or burst processed; on acceptance print the config,
allocate the 156-slot buffer, read the file into it and run the orchestrator
once with SPSRx = config.rx_sps on the requested type config.type. -/
def main_model (sp : SigProc) (o : OptValues) (fileBurst : Burst)
    (RSSI₀ timingOffset₀ : ℚ) : MainResult :=
  match handle_options o with
  | (effs, none) =>
      { effs := effs, demodCalled := false, burstLen := 0, readFloats := 0,
        soft := none, RSSI := RSSI₀, timingOffset := timingOffset₀ }
  | (effs, some config) =>
      let d := demodulateBurst sp config fileBurst config.rx_sps RSSI₀
        timingOffset₀ config.type
      { effs := effs ++ [.printConfig] ++ d.effs, demodCalled := true,
        burstLen := mainBurstLen, readFloats := mainReadFloats,
        soft := d.soft, RSSI := d.RSSI, timingOffset := d.timingOffset }

/-- A concrete oracle for evaluation: the EDGE correlator fails with score
-1, the TSC and RACH correlators succeed, the two demodulators return
distinct soft bit sequences. -/
def spTest : SigProc :=
  { detectEdgeBurst := fun _ _ _ _ _ => { rc := -1, amp := (0, 0), toa := 2 },
    analyzeTrafficBurst := fun _ _ _ _ _ => { rc := 9, amp := (1, 1), toa := 7 },
    detectRACHBurst := fun _ _ _ _ => { rc := 8, amp := (2, 0), toa := 3 },
    energyDetect := fun _ _ _ => 1,
    log10 := fun _ => 2,
    demodEdgeBurst := fun _ _ _ _ => some [1],
    demodulateBurst := fun _ _ _ _ => some [2] }

/-- A concrete oracle for evaluation: every correlator reports the clipping
status -SIGERR_CLIP. -/
def spClip : SigProc :=
  { detectEdgeBurst := fun _ _ _ _ _ => { rc := -2, amp := (0, 0), toa := 0 },
    analyzeTrafficBurst := fun _ _ _ _ _ => { rc := -2, amp := (0, 0), toa := 0 },
    detectRACHBurst := fun _ _ _ _ => { rc := -2, amp := (0, 0), toa := 0 },
    energyDetect := fun _ _ _ => 1,
    log10 := fun _ => 2,
    demodEdgeBurst := fun _ _ _ _ => some [1],
    demodulateBurst := fun _ _ _ _ => some [2] }

/-- A concrete config for evaluation: 4 samples per symbol, EDGE enabled,
training sequence 2. -/
def cfgTest : trx_config :=
  { log_level := "NOTICE", rx_sps := 4, rtsc := 2, max_expected_delay_nb := 30,
    max_expected_delay_ab := 30, rx_full_scale := 32767, edge := true,
    type := .TSC, filename := "burst.bin" }

example : (detectBurst spTest cfgTest [] (0, 0) 0 .EDGE).rc = 1 := by decide
example : (detectBurst spClip cfgTest [] (0, 0) 0 .TSC).rc = -2 := by decide
example : (demodulateBurst spClip cfgTest [] 4 0 0 .TSC).soft = none := by decide
example : (demodulateBurst spTest cfgTest [] 4 0 0 .EDGE).soft = some [2] := by decide

/-- Truncation toward zero sends a non-positive rational to a non-positive
integer. -/
theorem truncQ_nonpos {q : ℚ} (h : q ≤ 0) : truncQ q ≤ 0 := by
  unfold truncQ
  split
  · have hq : q = 0 := le_antisymm h (by assumption)
    simp [hq]
  · exact Int.ceil_le.mpr (by exact_mod_cast h)

/-- The effect trace of detectBurst is empty except for the invalid-type
error of the default branch. -/
theorem detectBurst_effs_cases (sp : SigProc) (config : trx_config)
    (burst : Burst) (amp₀ : ℚ × ℚ) (toa₀ : ℚ) (ty : CorrType) :
    (detectBurst sp config burst amp₀ toa₀ ty).effs = []
    ∨ (detectBurst sp config burst amp₀ toa₀ ty).effs
        = [Eff.logErr invalidTypeMsg] := by
  cases ty
  · right; rfl
  · left; rfl
  · left; rfl
  · simp only [detectBurst]
    split
    · left; rfl
    · left; rfl
  · left; rfl

/-- Claim C7: for every oracle, config and burst content, a detectBurst call
requested as IDLE invokes no correlator, emits no effect, and returns the
neutral no-burst code SIGERR_NONE, which is neither an error code nor a
positive classification. -/
theorem detectBurst_idle_neutral (sp : SigProc) (config : trx_config)
    (burst : Burst) (amp₀ : ℚ × ℚ) (toa₀ : ℚ) :
    (detectBurst sp config burst amp₀ toa₀ .IDLE).rc = SIGERR_NONE
    ∧ (detectBurst sp config burst amp₀ toa₀ .IDLE).calls = []
    ∧ (detectBurst sp config burst amp₀ toa₀ .IDLE).effs = []
    ∧ ¬(detectBurst sp config burst amp₀ toa₀ .IDLE).rc < 0
    ∧ ¬0 < (detectBurst sp config burst amp₀ toa₀ .IDLE).rc :=
  ⟨rfl, rfl, rfl, by simp [detectBurst, SIGERR_NONE],
    by simp [detectBurst, SIGERR_NONE]⟩

/-- Claim C9: a requested type outside EDGE, TSC, RACH, IDLE (the OFF
enumerator) makes detectBurst log the invalid-type error, invoke no
correlator and return 0 (no positive classification), so demodulateBurst
returns NULL for that burst; no exit is reached. -/
theorem detectBurst_invalid_type (sp : SigProc) (config : trx_config)
    (burst : Burst) (SPSRx : ℕ) (R₀ t₀ : ℚ) (amp₀ : ℚ × ℚ) (toa₀ : ℚ)
    (c : ℕ) :
    (detectBurst sp config burst amp₀ toa₀ .OFF).effs
        = [Eff.logErr invalidTypeMsg]
    ∧ (detectBurst sp config burst amp₀ toa₀ .OFF).calls = []
    ∧ (detectBurst sp config burst amp₀ toa₀ .OFF).rc = 0
    ∧ (demodulateBurst sp config burst SPSRx R₀ t₀ .OFF).soft = none
    ∧ Eff.exitProc c ∉ (demodulateBurst sp config burst SPSRx R₀ t₀ .OFF).effs := by
  refine ⟨rfl, rfl, rfl, ?_, ?_⟩
  · simp [demodulateBurst, detectBurst, SIGERR_NONE, SIGERR_CLIP]
  · simp [demodulateBurst, detectBurst, SIGERR_NONE, SIGERR_CLIP, invalidTypeMsg]

/-- Claim C3: on every call, whatever the requested type and however the
cascade resolves, demodulateBurst reports RSSI as 20 times the log10 of
full scale over the average amplitude that the energy estimator computes on
the leading window of 20 times rx_sps samples with dc offset 0. -/
theorem demodulateBurst_rssi (sp : SigProc) (config : trx_config)
    (burst : Burst) (SPSRx : ℕ) (R₀ t₀ : ℚ) (ty : CorrType) :
    (demodulateBurst sp config burst SPSRx R₀ t₀ ty).RSSI
      = 20 * sp.log10
          (config.rx_full_scale / sp.energyDetect burst (20 * config.rx_sps) 0) := by
  simp only [demodulateBurst]
  split
  · split <;> rfl
  · rfl

/-- Claim C10: when the cascade result is non-positive, demodulateBurst
returns NULL and leaves the timingOffset out parameter exactly as the
caller passed it, while the RSSI out parameter is still overwritten with
the energy-based value. -/
theorem demodulateBurst_frame (sp : SigProc) (config : trx_config)
    (burst : Burst) (SPSRx : ℕ) (R₀ t₀ : ℚ) (ty : CorrType)
    (h : (detectBurst sp config burst (0, 0) 0 ty).rc ≤ 0) :
    (demodulateBurst sp config burst SPSRx R₀ t₀ ty).timingOffset = t₀
    ∧ (demodulateBurst sp config burst SPSRx R₀ t₀ ty).soft = none
    ∧ (demodulateBurst sp config burst SPSRx R₀ t₀ ty).RSSI
        = 20 * sp.log10
            (config.rx_full_scale / sp.energyDetect burst (20 * config.rx_sps) 0) := by
  have h1 : ¬(detectBurst sp config burst (0, 0) 0 ty).rc > 0 := not_lt.mpr h
  simp only [demodulateBurst]
  rw [if_neg h1]
  exact ⟨rfl, rfl, rfl⟩

/-- Witness for C10 at a concrete input: the clipping oracle on a RACH
request fails detection, so timingOffset keeps its previous value 42 and
RSSI is the energy-based value. -/
theorem demodulateBurst_frame_witness :
    (demodulateBurst spClip cfgTest [] 4 0 42 .RACH).timingOffset = 42
    ∧ (demodulateBurst spClip cfgTest [] 4 0 42 .RACH).soft = none
    ∧ (demodulateBurst spClip cfgTest [] 4 0 42 .RACH).RSSI
        = 20 * spClip.log10
            (cfgTest.rx_full_scale / spClip.energyDetect [] (20 * cfgTest.rx_sps) 0) :=
  demodulateBurst_frame spClip cfgTest [] 4 0 42 .RACH (by decide)

/-- Claim C8: whenever the cascade returns a positive code, demodulateBurst
writes timingOffset as the raw time of arrival divided by the SPSRx
argument, for SPSRx 1 or 4. -/
theorem demodulateBurst_timing (sp : SigProc) (config : trx_config)
    (burst : Burst) (SPSRx : ℕ) (R₀ t₀ : ℚ) (ty : CorrType)
    (hs : SPSRx = 1 ∨ SPSRx = 4)
    (h : 0 < (detectBurst sp config burst (0, 0) 0 ty).rc) :
    (demodulateBurst sp config burst SPSRx R₀ t₀ ty).timingOffset
      = (detectBurst sp config burst (0, 0) 0 ty).toa / (SPSRx : ℚ) := by
  simp only [demodulateBurst]
  rw [if_pos h]
  split <;> rfl

/-- Witness for C8 at a concrete input: the test oracle resolves an EDGE
request to TSC with time of arrival 7, and the reported timing offset is
7 divided by the SPSRx argument 4. -/
theorem demodulateBurst_timing_witness :
    (demodulateBurst spTest cfgTest [] 4 0 5 .EDGE).timingOffset
      = (detectBurst spTest cfgTest [] (0, 0) 0 .EDGE).toa / ((4 : ℕ) : ℚ) :=
  demodulateBurst_timing spTest cfgTest [] 4 0 5 .EDGE (Or.inr rfl) (by decide)

/-- Claim C1: when an EDGE request gets a non-positive score from the EDGE
correlator, detectBurst invokes the normal-burst correlator on the same
burst with the same threshold 5 and the normal-burst delay bound, and when
that correlator scores positive the call returns the TSC code, never the
EDGE code. -/
theorem detectBurst_edge_fallback (sp : SigProc) (config : trx_config)
    (burst : Burst) (amp₀ : ℚ × ℚ) (toa₀ : ℚ)
    (hE : (sp.detectEdgeBurst burst config.rtsc 5 config.rx_sps
        config.max_expected_delay_nb).rc ≤ 0)
    (hT : (sp.analyzeTrafficBurst burst config.rtsc 5 config.rx_sps
        config.max_expected_delay_nb).rc > 0) :
    (detectBurst sp config burst amp₀ toa₀ .EDGE).calls
      = [DetCall.edge burst config.rtsc 5 config.rx_sps
          config.max_expected_delay_nb,
         DetCall.tsc burst config.rtsc 5 config.rx_sps
          config.max_expected_delay_nb]
    ∧ (detectBurst sp config burst amp₀ toa₀ .EDGE).rc = corrTypeCode .TSC
    ∧ (detectBurst sp config burst amp₀ toa₀ .EDGE).rc ≠ corrTypeCode .EDGE := by
  have h1 : ¬(sp.detectEdgeBurst burst config.rtsc 5 config.rx_sps
      config.max_expected_delay_nb).rc > 0 := not_lt.mpr hE
  simp only [detectBurst]
  rw [if_neg h1, if_pos hT]
  exact ⟨rfl, rfl, by simp [corrTypeCode]⟩

/-- Witness for C1 at a concrete input: the test oracle fails the EDGE
correlation with score -1 and passes the TSC correlation with score 9, so
the cascade runs both correlators and resolves to the TSC code. -/
theorem detectBurst_edge_fallback_witness :
    (detectBurst spTest cfgTest [] (0, 0) 0 .EDGE).calls
      = [DetCall.edge [] cfgTest.rtsc 5 cfgTest.rx_sps
          cfgTest.max_expected_delay_nb,
         DetCall.tsc [] cfgTest.rtsc 5 cfgTest.rx_sps
          cfgTest.max_expected_delay_nb]
    ∧ (detectBurst spTest cfgTest [] (0, 0) 0 .EDGE).rc = corrTypeCode .TSC
    ∧ (detectBurst spTest cfgTest [] (0, 0) 0 .EDGE).rc ≠ corrTypeCode .EDGE :=
  detectBurst_edge_fallback spTest cfgTest [] (0, 0) 0 (by decide) (by decide)

/-- Claim C2: a non-positive cascade result makes demodulateBurst return
NULL; the clipping code adds a console message absent from the silent
neutral case, any other negative code adds the unhandled-detection log
warning, and no effect of the call is a process exit. -/
theorem demodulateBurst_nonpositive (sp : SigProc) (config : trx_config)
    (burst : Burst) (SPSRx : ℕ) (R₀ t₀ : ℚ) (ty : CorrType)
    (h : (detectBurst sp config burst (0, 0) 0 ty).rc ≤ 0) :
    (demodulateBurst sp config burst SPSRx R₀ t₀ ty).soft = none
    ∧ ((detectBurst sp config burst (0, 0) 0 ty).rc = -SIGERR_CLIP →
        Eff.coutMsg clipMsg ∈ (demodulateBurst sp config burst SPSRx R₀ t₀ ty).effs)
    ∧ ((detectBurst sp config burst (0, 0) 0 ty).rc = SIGERR_NONE →
        Eff.coutMsg clipMsg ∉ (demodulateBurst sp config burst SPSRx R₀ t₀ ty).effs
        ∧ Eff.logWarning unhandledMsg
            ∉ (demodulateBurst sp config burst SPSRx R₀ t₀ ty).effs)
    ∧ ((detectBurst sp config burst (0, 0) 0 ty).rc < 0 →
        (detectBurst sp config burst (0, 0) 0 ty).rc ≠ -SIGERR_CLIP →
        Eff.logWarning unhandledMsg
          ∈ (demodulateBurst sp config burst SPSRx R₀ t₀ ty).effs)
    ∧ ∀ c, Eff.exitProc c ∉ (demodulateBurst sp config burst SPSRx R₀ t₀ ty).effs := by
  have h1 : ¬(detectBurst sp config burst (0, 0) 0 ty).rc > 0 := not_lt.mpr h
  simp only [demodulateBurst]
  rw [if_neg h1]
  refine ⟨rfl, ?_, ?_, ?_, ?_⟩
  · intro hc
    rw [if_pos hc]
    exact List.mem_append_right _ (by simp)
  · intro h0
    rw [h0]
    have hne : ¬(SIGERR_NONE = -SIGERR_CLIP) := by decide
    rw [if_neg hne, if_neg (by simp)]
    rcases detectBurst_effs_cases sp config burst (0, 0) 0 ty with he | he <;>
      rw [he] <;> simp [clipMsg, invalidTypeMsg, unhandledMsg]
  · intro hneg hnc
    rw [if_neg hnc, if_pos (by simp only [SIGERR_NONE]; omega)]
    exact List.mem_append_right _ (by simp)
  · intro c
    simp only [List.mem_append, not_or]
    constructor
    · rcases detectBurst_effs_cases sp config burst (0, 0) 0 ty with he | he <;>
        rw [he] <;> simp
    · split
      · simp
      · split <;> simp

/-- Witness for C2 at a concrete input: the clipping oracle makes a TSC
request fail with the clipping code -2, so the call returns none, the
console carries the clipping message and no exit happens. -/
theorem demodulateBurst_nonpositive_witness :
    (demodulateBurst spClip cfgTest [] 4 0 0 .TSC).soft = none
    ∧ ((detectBurst spClip cfgTest [] (0, 0) 0 .TSC).rc = -SIGERR_CLIP →
        Eff.coutMsg clipMsg ∈ (demodulateBurst spClip cfgTest [] 4 0 0 .TSC).effs)
    ∧ ((detectBurst spClip cfgTest [] (0, 0) 0 .TSC).rc = SIGERR_NONE →
        Eff.coutMsg clipMsg ∉ (demodulateBurst spClip cfgTest [] 4 0 0 .TSC).effs
        ∧ Eff.logWarning unhandledMsg
            ∉ (demodulateBurst spClip cfgTest [] 4 0 0 .TSC).effs)
    ∧ ((detectBurst spClip cfgTest [] (0, 0) 0 .TSC).rc < 0 →
        (detectBurst spClip cfgTest [] (0, 0) 0 .TSC).rc ≠ -SIGERR_CLIP →
        Eff.logWarning unhandledMsg
          ∈ (demodulateBurst spClip cfgTest [] 4 0 0 .TSC).effs)
    ∧ ∀ c, Eff.exitProc c ∉ (demodulateBurst spClip cfgTest [] 4 0 0 .TSC).effs :=
  demodulateBurst_nonpositive spClip cfgTest [] 4 0 0 .TSC (by decide)

/-- Claim C4: on a positive cascade result demodulateBurst dispatches on the
resolved type: the EDGE demodulator exactly when the resolved type is EDGE,
the generic demodulator otherwise, both on the amp and toa the cascade
produced; in particular an EDGE request whose EDGE correlation failed and
whose cascade still resolved positively is demodulated by the generic
demodulator. -/
theorem demodulateBurst_dispatch (sp : SigProc) (config : trx_config)
    (burst : Burst) (SPSRx : ℕ) (R₀ t₀ : ℚ) (ty : CorrType)
    (h : (detectBurst sp config burst (0, 0) 0 ty).rc > 0) :
    (codeToCorrType (detectBurst sp config burst (0, 0) 0 ty).rc = .EDGE →
        (demodulateBurst sp config burst SPSRx R₀ t₀ ty).soft
          = sp.demodEdgeBurst burst config.rx_sps
              (detectBurst sp config burst (0, 0) 0 ty).amp
              (detectBurst sp config burst (0, 0) 0 ty).toa)
    ∧ (codeToCorrType (detectBurst sp config burst (0, 0) 0 ty).rc ≠ .EDGE →
        (demodulateBurst sp config burst SPSRx R₀ t₀ ty).soft
          = sp.demodulateBurst burst config.rx_sps
              (detectBurst sp config burst (0, 0) 0 ty).amp
              (detectBurst sp config burst (0, 0) 0 ty).toa)
    ∧ (ty = .EDGE →
        (sp.detectEdgeBurst burst config.rtsc 5 config.rx_sps
            config.max_expected_delay_nb).rc ≤ 0 →
        (demodulateBurst sp config burst SPSRx R₀ t₀ ty).soft
          = sp.demodulateBurst burst config.rx_sps
              (detectBurst sp config burst (0, 0) 0 ty).amp
              (detectBurst sp config burst (0, 0) 0 ty).toa) := by
  have hedge : codeToCorrType (detectBurst sp config burst (0, 0) 0 ty).rc = .EDGE →
      (demodulateBurst sp config burst SPSRx R₀ t₀ ty).soft
        = sp.demodEdgeBurst burst config.rx_sps
            (detectBurst sp config burst (0, 0) 0 ty).amp
            (detectBurst sp config burst (0, 0) 0 ty).toa := by
    intro he
    simp only [demodulateBurst]
    rw [if_pos h, if_pos he]
  have hgen : codeToCorrType (detectBurst sp config burst (0, 0) 0 ty).rc ≠ .EDGE →
      (demodulateBurst sp config burst SPSRx R₀ t₀ ty).soft
        = sp.demodulateBurst burst config.rx_sps
            (detectBurst sp config burst (0, 0) 0 ty).amp
            (detectBurst sp config burst (0, 0) 0 ty).toa := by
    intro hne
    simp only [demodulateBurst]
    rw [if_pos h, if_neg hne]
  refine ⟨hedge, hgen, ?_⟩
  intro hty hE
  subst hty
  have h1 : ¬(sp.detectEdgeBurst burst config.rtsc 5 config.rx_sps
      config.max_expected_delay_nb).rc > 0 := not_lt.mpr hE
  have hrc : (detectBurst sp config burst (0, 0) 0 .EDGE).rc
      = if (sp.analyzeTrafficBurst burst config.rtsc 5 config.rx_sps
            config.max_expected_delay_nb).rc > 0
        then corrTypeCode .TSC
        else truncQ (sp.analyzeTrafficBurst burst config.rtsc 5 config.rx_sps
            config.max_expected_delay_nb).rc := by
    simp only [detectBurst]
    rw [if_neg h1]
  by_cases h2 : (sp.analyzeTrafficBurst burst config.rtsc 5 config.rx_sps
      config.max_expected_delay_nb).rc > 0
  · refine hgen ?_
    rw [hrc, if_pos h2]
    decide
  · exfalso
    rw [hrc, if_neg h2] at h
    exact absurd h (not_lt.mpr (truncQ_nonpos (not_lt.mp h2)))

/-- Witness for C4 at a concrete input: the test oracle fails the EDGE
correlation, the cascade resolves positively, so all three dispatch
properties hold at that input; in particular the generic demodulator is
used. -/
theorem demodulateBurst_dispatch_witness :
    (codeToCorrType (detectBurst spTest cfgTest [] (0, 0) 0 .EDGE).rc = .EDGE →
        (demodulateBurst spTest cfgTest [] 4 0 0 .EDGE).soft
          = spTest.demodEdgeBurst [] cfgTest.rx_sps
              (detectBurst spTest cfgTest [] (0, 0) 0 .EDGE).amp
              (detectBurst spTest cfgTest [] (0, 0) 0 .EDGE).toa)
    ∧ (codeToCorrType (detectBurst spTest cfgTest [] (0, 0) 0 .EDGE).rc ≠ .EDGE →
        (demodulateBurst spTest cfgTest [] 4 0 0 .EDGE).soft
          = spTest.demodulateBurst [] cfgTest.rx_sps
              (detectBurst spTest cfgTest [] (0, 0) 0 .EDGE).amp
              (detectBurst spTest cfgTest [] (0, 0) 0 .EDGE).toa)
    ∧ (CorrType.EDGE = CorrType.EDGE →
        (spTest.detectEdgeBurst [] cfgTest.rtsc 5 cfgTest.rx_sps
            cfgTest.max_expected_delay_nb).rc ≤ 0 →
        (demodulateBurst spTest cfgTest [] 4 0 0 .EDGE).soft
          = spTest.demodulateBurst [] cfgTest.rx_sps
              (detectBurst spTest cfgTest [] (0, 0) 0 .EDGE).amp
              (detectBurst spTest cfgTest [] (0, 0) 0 .EDGE).toa) :=
  demodulateBurst_dispatch spTest cfgTest [] 4 0 0 .EDGE (by decide)

/-- Claim C5: handle_options delivers a config exactly when samples per
symbol is 1 or 4, the training sequence index is at most 7 and EDGE enabled
implies 4 samples per symbol; on any violation it prints the usage text and
exits with code 0, and main never reaches the orchestrator. -/
theorem handle_options_validation (o : OptValues) (sp : SigProc) (fB : Burst)
    (R₀ t₀ : ℚ) :
    ((handle_options o).2.isSome = true
      ↔ ((o.rx_sps = 1 ∨ o.rx_sps = 4) ∧ o.rtsc ≤ 7
          ∧ (o.edge = true → o.rx_sps = 4)))
    ∧ ((handle_options o).2 = none →
        Eff.printUsage ∈ (handle_options o).1
        ∧ Eff.exitProc 0 ∈ (handle_options o).1
        ∧ (main_model sp o fB R₀ t₀).demodCalled = false) := by
  constructor
  · simp only [handle_options]
    split_ifs with h1 h2 h3 <;> simp_all <;> omega
  · intro hnone
    have husage : Eff.printUsage ∈ (handle_options o).1
        ∧ Eff.exitProc 0 ∈ (handle_options o).1 := by
      simp only [handle_options] at hnone ⊢
      split_ifs at hnone ⊢ <;> simp_all
    refine ⟨husage.1, husage.2, ?_⟩
    simp only [main_model]
    rcases hm : handle_options o with ⟨effs, cfg⟩
    rw [hm] at hnone
    cases cfg
    · rfl
    · exact absurd hnone (by simp)

/-- A concrete option set that the validator accepts with 4 samples per
symbol and EDGE enabled (the command line -e -s 4 -t 2 -f burst.bin). -/
def oSps4 : OptValues :=
  { log_level := "NOTICE", rx_sps := 4, edge := true, rtsc := 2,
    filename := "burst.bin" }

/-- Claim C6, evaluated on the code at the failing input: with 4 samples
per symbol accepted by the validator, main still allocates a burst buffer of
exactly 156 complex values and reads exactly 156 times 2 raw floats, not the
156 times samples-per-symbol values the claim states (624 complex values and
1248 floats at 4 samples per symbol). -/
theorem main_burst_len_fixed :
    (handle_options oSps4).2.map trx_config.rx_sps = some 4
    ∧ (main_model spTest oSps4 [] 0 0).demodCalled = true
    ∧ (main_model spTest oSps4 [] 0 0).burstLen = mainBurstLen
    ∧ (main_model spTest oSps4 [] 0 0).readFloats = mainReadFloats
    ∧ mainBurstLen = 156
    ∧ mainReadFloats = 156 * 2
    ∧ mainBurstLen ≠ 156 * 4
    ∧ mainReadFloats ≠ 156 * 4 * 2 := by
  refine ⟨by decide, ?_, ?_, ?_, by decide, by decide, by decide, by decide⟩ <;>
    simp [main_model, handle_options, oSps4]
